import Mathlib

/-!
Verification of the mneme role-play session core against its source.

The definitions below are a shallow embedding of the two source modules the
claims are about:

* `useSyrinxSession` (frontend hook, file `pages/Messages.tsx` segment):
  the Session Client owning the connection lifecycle, transcript and flags.
  React state setters become explicit record updates on `SessionState`;
  the WebSocket handle becomes an `Option Transport` carrying a `readyState`;
  outbound `ws.send` calls become a returned list of `OutboundRecord`s; the
  inbound `onmessage` / `onerror` / `onclose` / `onopen` callbacks become
  state-transition functions on parsed `InboundRecord`s.

* `buildScenario` (file `lib/roleplay.ts` segment): the Scenario Builder, a
  pure function from a patient-detail record to a `SyrinxScenario`.  The
  wall-clock `Date.now` and the parsed date of birth are passed as epoch
  milliseconds; JavaScript string truthiness (undefined and the empty string
  are falsy) is modelled by `truthy` and `jsOrString`.
-/

namespace Mneme

/-- Speaker tag of a transcript entry (`ChatMessage.speaker` in the hook). -/
inductive Speaker where
  | doctor
  | parent
deriving DecidableEq

/-- One transcript entry (`ChatMessage` in `useSyrinxSession`).  The
timestamp (`new Date()` in the source) is carried as an abstract number. -/
structure ChatMessage where
  id : String
  speaker : Speaker
  text : String
  timestamp : Nat
deriving DecidableEq

/-- The `readyState` of a browser WebSocket. -/
inductive ReadyState where
  | connecting
  | opened
  | closing
  | closed
deriving DecidableEq

/-- The transport handle held in `wsRef`, reduced to its observable
`readyState`. -/
structure Transport where
  readyState : ReadyState
deriving DecidableEq

/-- `SyrinxScenario.patient` from `useSyrinxSession`. -/
structure ScenarioPatient where
  name : String
  age : String
  sex : String
  allergies : List String
  medications : List String
  chronic_conditions : List String
deriving DecidableEq

/-- `SyrinxScenario.parent` from `useSyrinxSession`. -/
structure ScenarioParent where
  style : String
deriving DecidableEq

/-- The scenario descriptor sent to the peer (`SyrinxScenario`). -/
structure SyrinxScenario where
  description : String
  patient : ScenarioPatient
  parent : ScenarioParent
  chief_complaint : String
deriving DecidableEq

/-- The observable state of one `useSyrinxSession` instance: the React
state cells (`messages`, `isConnected`, `isConnecting`,
`isWaitingForResponse`, `error`) plus the two refs (`wsRef`,
`messageIdRef`). -/
structure SessionState where
  messages : List ChatMessage
  isConnected : Bool
  isConnecting : Bool
  isWaitingForResponse : Bool
  error : Option String
  ws : Option Transport
  messageId : Nat
deriving DecidableEq

/-- A record written to the transport by `ws.send`. -/
inductive OutboundRecord where
  | init (role : String) (scenario : SyrinxScenario)
  | message (text : String)
deriving DecidableEq

/-- A parsed inbound record, as discriminated by the `onmessage` handler.
`message` and `error` carry optional payload fields (`data.text`,
`data.error`); `malformed` stands for a payload whose JSON parse threw. -/
inductive InboundRecord where
  | connected
  | message (text : Option String)
  | error (error : Option String)
  | ended
  | malformed
deriving DecidableEq

/-- JavaScript truthiness of an optional string: `undefined` and the empty
string are falsy. -/
def truthy : Option String → Bool
  | some s => s != ""
  | none => false

/-- The JavaScript `v || d` idiom on an optional string: the default is
taken when the value is absent or empty. -/
def jsOrString (v : Option String) (d : String) : String :=
  match v with
  | some s => if s == "" then d else s
  | none => d

/-- The guard `wsRef.current?.readyState === WebSocket.OPEN`. -/
def wsIsOpen : Option Transport → Bool
  | some t => t.readyState == ReadyState.opened
  | none => false

/-- `generateId`: increments `messageIdRef` and renders the new value; the
argument is the counter value before the increment. -/
def generateId (messageId : Nat) : String :=
  "msg-" ++ toString (messageId + 1)

/-- `connect(scenario)`: a no-op when the current transport is already
open; otherwise sets `isConnecting`, clears the error and the transcript,
and installs a fresh transport (a browser WebSocket starts in the
`CONNECTING` state).  The scenario is only used later, by the captured
`onopen` handler (`handleOpen`). -/
def connect (scenario : SyrinxScenario) (s : SessionState) : SessionState :=
  if wsIsOpen s.ws then s
  else
    { s with
        isConnecting := true
        error := none
        messages := []
        ws := some { readyState := ReadyState.connecting } }

/-- The `ws.onopen` handler: the transport is now open; clear
`isConnecting`, set `isConnected` and `isWaitingForResponse`, and send the
init record carrying the role and the scenario. -/
def handleOpen (scenario : SyrinxScenario) (s : SessionState) :
    SessionState × List OutboundRecord :=
  ({ s with
      ws := some { readyState := ReadyState.opened }
      isConnecting := false
      isConnected := true
      isWaitingForResponse := true },
    [OutboundRecord.init "doctor" scenario])

/-- The `ws.onmessage` handler on a parsed record.  A `message` record with
a truthy `text` appends a counterpart entry and clears the waiting flag; an
`error` record stores `data.error || 'An error occurred'` and clears the
waiting flag; an `end` record clears `isConnected`; every other record
(including a malformed payload, whose parse failure is only logged) changes
nothing. -/
def handleInbound (now : Nat) (r : InboundRecord) (s : SessionState) :
    SessionState :=
  match r with
  | InboundRecord.message t =>
      if truthy t then
        { s with
            messages := s.messages ++
              [{ id := generateId s.messageId
                 speaker := Speaker.parent
                 text := (t.getD "")
                 timestamp := now }]
            messageId := s.messageId + 1
            isWaitingForResponse := false }
      else s
  | InboundRecord.error e =>
      { s with
          error := some (jsOrString e "An error occurred")
          isWaitingForResponse := false }
  | InboundRecord.ended => { s with isConnected := false }
  | InboundRecord.connected => s
  | InboundRecord.malformed => s

/-- The `ws.onerror` handler: store the fixed connection-error text and
clear `isConnecting`, `isConnected` and `isWaitingForResponse`. -/
def handleTransportError (s : SessionState) : SessionState :=
  { s with
      error := some "Connection error. Is Syrinx running on port 8003?"
      isConnecting := false
      isConnected := false
      isWaitingForResponse := false }

/-- The `ws.onclose` handler: clear `isConnected`, `isConnecting` and
`isWaitingForResponse`. -/
def handleClose (s : SessionState) : SessionState :=
  { s with
      isConnected := false
      isConnecting := false
      isWaitingForResponse := false }

/-- `sendMessage(text)`: when no transport exists or it is not open, set
the error and return; otherwise append the callers entry to the
transcript, set the waiting flag and transmit a turn record. -/
def sendMessage (now : Nat) (text : String) (s : SessionState) :
    SessionState × List OutboundRecord :=
  if !(wsIsOpen s.ws) then
    ({ s with error := some "Not connected to Syrinx" }, [])
  else
    ({ s with
        messages := s.messages ++
          [{ id := generateId s.messageId
             speaker := Speaker.doctor
             text := text
             timestamp := now }]
        messageId := s.messageId + 1
        isWaitingForResponse := true },
      [OutboundRecord.message text])

/-- `disconnect()`: close the transport when present and drop the handle,
then clear `isConnected` and `isWaitingForResponse`.  The boolean reports
whether a `close()` call was issued. -/
def disconnect (s : SessionState) : SessionState × Bool :=
  ({ s with
      ws := none
      isConnected := false
      isWaitingForResponse := false },
    s.ws.isSome)

/-- `clearError()`: dismiss the current error. -/
def clearError (s : SessionState) : SessionState :=
  { s with error := none }

/-- `handleSubmit` of `RolePlayModal`: the UI-level guard in front of
`sendMessage`.  A blank input, a pending reply, or a disconnected session
makes the submission a no-op; otherwise the trimmed input is sent. -/
def handleSubmit (now : Nat) (inputValue : String) (s : SessionState) :
    SessionState × List OutboundRecord :=
  if inputValue.trim == "" || s.isWaitingForResponse || !s.isConnected then
    (s, [])
  else
    sendMessage now inputValue.trim s

/-- One recorded reaction of an allergy (`Allergy.reactions[i]` in the API
types). -/
structure Reaction where
  manifestation : String
  severity : Option String
deriving DecidableEq

/-- An allergy roster entry (`Allergy` in the API types; fields unused by
`buildScenario` other than identification are kept, `any`-typed ones are
not). -/
structure Allergy where
  id : String
  display_name : String
  category : Option String
  criticality : String
  reactions : Option (List Reaction)
deriving DecidableEq

/-- A medication roster entry (`Medication` in the API types). -/
structure Medication where
  id : String
  display_name : String
  status : String
  dose_quantity : Option String
  dose_unit : Option String
  frequency : Option String
  route : Option String
deriving DecidableEq

/-- A condition roster entry (`Condition` in the API types). -/
structure Condition where
  id : String
  display_name : String
  clinical_status : String
  severity : Option String
  onset_date : Option String
deriving DecidableEq

/-- The demographics consumed by `buildScenario`.  `date_of_birth` is the
epoch-millisecond value of the parsed date string
(`new Date(patient.date_of_birth).getTime()`). -/
structure Patient where
  id : String
  given_names : List String
  family_name : String
  date_of_birth : Nat
  sex_at_birth : Option String
  age_years : Nat
deriving DecidableEq

/-- The slice of `PatientDetail` consumed by `buildScenario`. -/
structure PatientDetail where
  patient : Patient
  conditions : List Condition
  medications : List Medication
  allergies : List Allergy
deriving DecidableEq

/-- The full-name template `` `${patient.given_names.join(' ')} ${patient.family_name}` ``. -/
def fullName (patient : Patient) : String :=
  String.intercalate " " patient.given_names ++ " " ++ patient.family_name

/-- The age string of `buildScenario`: below one whole year, whole months
as `Math.floor((now - dob) / (1000*60*60*24*30))`; otherwise the year
count; both pluralized with `s` exactly when the count differs from 1.
`now_ms` is the epoch-millisecond value of `new Date()`. -/
def ageString (now_ms : Nat) (patient : Patient) : String :=
  if patient.age_years < 1 then
    toString ((now_ms - patient.date_of_birth) / (1000 * 60 * 60 * 24 * 30))
      ++ " month"
      ++ (if (now_ms - patient.date_of_birth) / (1000 * 60 * 60 * 24 * 30) != 1
          then "s" else "")
  else
    toString patient.age_years ++ " year"
      ++ (if patient.age_years != 1 then "s" else "")

/-- The optional-chaining access `a.reactions?.[0]?.manifestation`. -/
def firstReactionManifestation (a : Allergy) : Option String :=
  match a.reactions with
  | some (r :: _) => some r.manifestation
  | _ => none

/-- Rendering of one included allergy: the display name, with the first
recorded reaction manifestation in parentheses when it is truthy. -/
def renderAllergy (a : Allergy) : String :=
  if truthy (firstReactionManifestation a) then
    a.display_name ++ " (" ++ (firstReactionManifestation a).getD "" ++ ")"
  else
    a.display_name

/-- Rendering of one included medication: name, dose and frequency when
both `dose_quantity` and `frequency` are truthy, otherwise the name. -/
def renderMedication (m : Medication) : String :=
  if truthy m.dose_quantity && truthy m.frequency then
    m.display_name ++ " " ++ m.dose_quantity.getD ""
      ++ jsOrString m.dose_unit "" ++ " " ++ m.frequency.getD ""
  else
    m.display_name

/-- The `filter` stage of the allergy roster: entries whose display name
is truthy (non-empty). -/
def includedAllergies (allergies : List Allergy) : List Allergy :=
  allergies.filter (fun a => a.display_name != "")

/-- The `filter` stage of the medication roster: entries whose `status`
is `active`. -/
def includedMedications (medications : List Medication) : List Medication :=
  medications.filter (fun m => m.status == "active")

/-- The `filter` stage of the condition roster: entries whose
`clinical_status` is `active`. -/
def includedConditions (conditions : List Condition) : List Condition :=
  conditions.filter (fun c => c.clinical_status == "active")

/-- `activeAllergies` of `buildScenario`: filter then map. -/
def activeAllergies (allergies : List Allergy) : List String :=
  (includedAllergies allergies).map renderAllergy

/-- `activeMedications` of `buildScenario`: filter then map. -/
def activeMedications (medications : List Medication) : List String :=
  (includedMedications medications).map renderMedication

/-- `activeConditions` of `buildScenario`: filter then map. -/
def activeConditions (conditions : List Condition) : List String :=
  (includedConditions conditions).map (fun c => c.display_name)

/-- `buildScenario(patientData, chiefComplaint, parentPersona)`.  The
persona tag is carried as its string value.  Empty filtered rosters are
replaced by the placeholder lists. -/
def buildScenario (now_ms : Nat) (patientData : PatientDetail)
    (chiefComplaint : String) (parentPersona : String) : SyrinxScenario :=
  { description :=
      ageString now_ms patientData.patient ++ " old "
        ++ jsOrString patientData.patient.sex_at_birth "child"
        ++ " named " ++ fullName patientData.patient
        ++ " presenting with " ++ chiefComplaint
    patient :=
      { name := fullName patientData.patient
        age := ageString now_ms patientData.patient
        sex := jsOrString patientData.patient.sex_at_birth "unknown"
        allergies :=
          if (activeAllergies patientData.allergies).length > 0 then
            activeAllergies patientData.allergies
          else ["None known"]
        medications :=
          if (activeMedications patientData.medications).length > 0 then
            activeMedications patientData.medications
          else ["None"]
        chronic_conditions :=
          if (activeConditions patientData.conditions).length > 0 then
            activeConditions patientData.conditions
          else ["None"] }
    parent := { style := parentPersona }
    chief_complaint := chiefComplaint }

/-- The rendering of a count with a unit as the specification words it:
the count, a space, the unit, pluralized with `s` when the count is
not 1. -/
def specCountUnit (n : Nat) (unit : String) : String :=
  toString n ++ " " ++ (if n = 1 then unit else unit ++ "s")

/-- A sample connected, waiting session state: the transport is open and a
reply is pending. -/
def waitingOpenState : SessionState :=
  { messages := []
    isConnected := true
    isConnecting := false
    isWaitingForResponse := true
    error := some "previous error"
    ws := some { readyState := ReadyState.opened }
    messageId := 0 }

/-- A sample session state with no transport handle. -/
def noTransportState : SessionState :=
  { messages := []
    isConnected := false
    isConnecting := false
    isWaitingForResponse := false
    error := none
    ws := none
    messageId := 5 }

/-- A sample infant patient: below one whole year of age, born at epoch 0. -/
def samplePatient : Patient :=
  { id := "p1"
    given_names := ["Ada", "Rose"]
    family_name := "Quinn"
    date_of_birth := 0
    sex_at_birth := some "female"
    age_years := 0 }

/-- A sample allergy with one recorded reaction. -/
def sampleAllergy : Allergy :=
  { id := "a1"
    display_name := "Penicillin"
    category := none
    criticality := "high"
    reactions := some [{ manifestation := "hives", severity := some "moderate" }] }

/-- A sample active medication. -/
def sampleMedicationActive : Medication :=
  { id := "m1"
    display_name := "Amoxicillin"
    status := "active"
    dose_quantity := some "250"
    dose_unit := some "mg"
    frequency := some "BID"
    route := none }

/-- A sample stopped medication. -/
def sampleMedicationStopped : Medication :=
  { id := "m2"
    display_name := "Acetaminophen"
    status := "stopped"
    dose_quantity := none
    dose_unit := none
    frequency := none
    route := none }

/-- A sample active condition. -/
def sampleConditionActive : Condition :=
  { id := "c1"
    display_name := "Asthma"
    clinical_status := "active"
    severity := none
    onset_date := none }

/-- A sample resolved condition. -/
def sampleConditionResolved : Condition :=
  { id := "c2"
    display_name := "Colic"
    clinical_status := "resolved"
    severity := none
    onset_date := none }

/-- A sample patient detail record with mixed-status rosters. -/
def samplePatientDetail : PatientDetail :=
  { patient := samplePatient
    conditions := [sampleConditionActive, sampleConditionResolved]
    medications := [sampleMedicationActive, sampleMedicationStopped]
    allergies := [sampleAllergy] }

/-- A sample patient detail record with empty rosters. -/
def sampleEmptyDetail : PatientDetail :=
  { patient := samplePatient
    conditions := []
    medications := []
    allergies := [] }

/-! ## Helper lemmas -/

/-- The source rendering of a pluralized count agrees with the rendering
the specification words describe. -/
theorem countUnit_src_eq_spec (n : Nat) (unit : String) :
    toString n ++ (" " ++ unit) ++ (if n != 1 then "s" else "") =
      specCountUnit n unit := by
  unfold specCountUnit
  rcases eq_or_ne n 1 with h1 | h1
  · subst h1
    rw [if_neg (by decide : ¬(((1 : Nat) != 1) = true)), if_pos rfl]
    apply String.ext
    simp [String.data_append]
  · have hb : (n != 1) = true := bne_iff_ne.mpr h1
    rw [hb, if_neg h1]
    simp only [if_true]
    apply String.ext
    simp [String.data_append]

/-- A rendered month count is never the string `0 years`. -/
theorem months_ne_zero_years (n : Nat) :
    toString n ++ " month" ++ (if n != 1 then "s" else "") ≠ "0 years" := by
  intro hEq
  rcases eq_or_ne n 1 with h1 | h1
  · subst h1
    exact absurd hEq (by decide)
  · have hb : (n != 1) = true := bne_iff_ne.mpr h1
    rw [hb] at hEq
    simp only [if_true] at hEq
    have hd := congrArg String.data hEq
    simp only [String.data_append] at hd
    have hlen := congrArg List.length hd
    simp only [List.length_append] at hlen
    have e1 : (" month" : String).data.length = 6 := by decide
    have e2 : ("s" : String).data.length = 1 := by decide
    have e3 : ("0 years" : String).data.length = 7 := by decide
    rw [e1, e2, e3] at hlen
    have hz : (toString n).data.length = 0 := by omega
    rw [List.length_eq_zero.mp hz] at hd
    exact absurd hd (by decide)

/-- An `if` on positive length keeps a non-empty list and never takes the
placeholder branch. -/
theorem placeholder_skipped {α : Type} (l d : List α) (h : l ≠ []) :
    (if l.length > 0 then l else d) = l :=
  if_pos (List.length_pos.mpr h)

/-! ## Claim theorems -/

/-- Claim C1, counterexample: in a connected session that is waiting for a
reply, `sendMessage` is not a no-op — it appends a transcript entry and
transmits an outbound turn record, because the Session Client only guards
on the transport being open, not on the waiting flag. -/
theorem sendMessage_while_waiting_cex :
    waitingOpenState.isWaitingForResponse = true
      ∧ (sendMessage 0 "hello" waitingOpenState).1.messages.length =
          waitingOpenState.messages.length + 1
      ∧ (sendMessage 0 "hello" waitingOpenState).2 =
          [OutboundRecord.message "hello"] := by
  refine ⟨rfl, ?_, rfl⟩
  simp [sendMessage, waitingOpenState, wsIsOpen]

/-- Claim C1, amended: the waiting guard lives in the UI Controller, not
in the Session Client.  While the waiting flag is true, `handleSubmit`
leaves the state unchanged and transmits nothing; a direct `sendMessage`
on an open transport still appends an entry and transmits a turn
record. -/
theorem sendTurn_waiting_guard_at_ui (now : Nat) (inputValue : String)
    (s : SessionState) (h : s.isWaitingForResponse = true) :
    handleSubmit now inputValue s = (s, [])
      ∧ (wsIsOpen s.ws = true →
          (sendMessage now inputValue s).2 = [OutboundRecord.message inputValue]
            ∧ (sendMessage now inputValue s).1.messages.length =
                s.messages.length + 1) := by
  constructor
  · simp [handleSubmit, h]
  · intro hw
    constructor
    · simp [sendMessage, hw]
    · simp [sendMessage, hw]

/-- Claim C1, witness for the amended theorem at a concrete waiting
state. -/
theorem sendTurn_waiting_guard_at_ui_witness :
    waitingOpenState.isWaitingForResponse = true
      ∧ handleSubmit 0 "hi" waitingOpenState = (waitingOpenState, [])
      ∧ (sendMessage 0 "hi" waitingOpenState).2 = [OutboundRecord.message "hi"] :=
  ⟨by decide,
   (sendTurn_waiting_guard_at_ui 0 "hi" waitingOpenState (by decide)).1,
   ((sendTurn_waiting_guard_at_ui 0 "hi" waitingOpenState (by decide)).2
      (by decide)).1⟩

/-- Claim C2, counterexample: after an inbound end record the connected
flag is false, but while the transport is still technically open a direct
`sendMessage` is not a no-op — it appends an entry and transmits a turn
record, because `sendMessage` only consults the transport state. -/
theorem sendTurn_after_end_cex :
    (handleInbound 0 InboundRecord.ended waitingOpenState).isConnected = false
      ∧ wsIsOpen (handleInbound 0 InboundRecord.ended waitingOpenState).ws = true
      ∧ (sendMessage 0 "hi"
            (handleInbound 0 InboundRecord.ended waitingOpenState)).1.messages.length
          = (handleInbound 0 InboundRecord.ended waitingOpenState).messages.length + 1
      ∧ (sendMessage 0 "hi" (handleInbound 0 InboundRecord.ended waitingOpenState)).2
          = [OutboundRecord.message "hi"] := by
  refine ⟨rfl, rfl, ?_, rfl⟩
  simp [sendMessage, handleInbound, waitingOpenState, wsIsOpen]

/-- Claim C2, amended: an inbound end record clears the connected flag and
leaves the transcript unchanged; every subsequent UI-level submission is a
no-op because the UI guard checks the connected flag, and a direct
`sendMessage` is a no-op (beyond surfacing the not-connected error) once
the transport is no longer open. -/
theorem end_record_disables_ui_sends (now now2 : Nat) (inputValue : String)
    (s : SessionState) :
    (handleInbound now InboundRecord.ended s).isConnected = false
      ∧ (handleInbound now InboundRecord.ended s).messages = s.messages
      ∧ handleSubmit now2 inputValue (handleInbound now InboundRecord.ended s) =
          (handleInbound now InboundRecord.ended s, [])
      ∧ (wsIsOpen (handleInbound now InboundRecord.ended s).ws = false →
          (sendMessage now2 inputValue
              (handleInbound now InboundRecord.ended s)).1.messages = s.messages
            ∧ (sendMessage now2 inputValue
                (handleInbound now InboundRecord.ended s)).2 = []) := by
  refine ⟨rfl, rfl, ?_, ?_⟩
  · simp [handleSubmit, handleInbound]
  · intro hw
    simp only [handleInbound] at hw
    constructor
    · simp [sendMessage, hw, handleInbound]
    · simp [sendMessage, hw, handleInbound]

/-- Claim C2, witness for the amended theorem at a concrete state with no
transport handle. -/
theorem end_record_disables_ui_sends_witness :
    (handleInbound 0 InboundRecord.ended noTransportState).isConnected = false
      ∧ handleSubmit 0 "hi" (handleInbound 0 InboundRecord.ended noTransportState) =
          (handleInbound 0 InboundRecord.ended noTransportState, [])
      ∧ (sendMessage 0 "hi" (handleInbound 0 InboundRecord.ended noTransportState)).2
          = [] :=
  ⟨(end_record_disables_ui_sends 0 0 "hi" noTransportState).1,
   (end_record_disables_ui_sends 0 0 "hi" noTransportState).2.2.1,
   ((end_record_disables_ui_sends 0 0 "hi" noTransportState).2.2.2 (by decide)).2⟩

/-- Claim C3, counterexample: an inbound error record whose payload is the
empty string does not store the empty string — the JavaScript default
idiom replaces it with the fallback text. -/
theorem error_record_empty_payload_cex :
    (handleInbound 0 (InboundRecord.error (some "")) waitingOpenState).error ≠ some ""
      ∧ (handleInbound 0 (InboundRecord.error (some "")) waitingOpenState).error
          = some "An error occurred" := by
  constructor
  · decide
  · rfl

/-- Claim C3, amended: an inbound error record stores the payload as the
current error when the payload is non-empty and the fallback text when it
is empty, clears the waiting flag, and leaves the transcript, the
connected flag and the transport unchanged. -/
theorem error_record_spec (now : Nat) (e : String) (s : SessionState) :
    (e ≠ "" →
        (handleInbound now (InboundRecord.error (some e)) s).error = some e)
      ∧ (e = "" →
          (handleInbound now (InboundRecord.error (some e)) s).error =
            some "An error occurred")
      ∧ (handleInbound now (InboundRecord.error (some e)) s).isWaitingForResponse
          = false
      ∧ (handleInbound now (InboundRecord.error (some e)) s).messages = s.messages
      ∧ (handleInbound now (InboundRecord.error (some e)) s).isConnected
          = s.isConnected
      ∧ (handleInbound now (InboundRecord.error (some e)) s).ws = s.ws := by
  refine ⟨?_, ?_, rfl, rfl, rfl, rfl⟩
  · intro h
    simp [handleInbound, jsOrString, h]
  · intro h
    simp [handleInbound, jsOrString, h]

/-- Claim C3, witness for the amended theorem with the error text of the
error scenario in the specification. -/
theorem error_record_spec_witness :
    (handleInbound 0 (InboundRecord.error (some "simulation unavailable"))
        waitingOpenState).error = some "simulation unavailable"
      ∧ (handleInbound 0 (InboundRecord.error (some "simulation unavailable"))
          waitingOpenState).isWaitingForResponse = false
      ∧ (handleInbound 0 (InboundRecord.error (some "simulation unavailable"))
          waitingOpenState).isConnected = waitingOpenState.isConnected :=
  ⟨(error_record_spec 0 "simulation unavailable" waitingOpenState).1 (by decide),
   (error_record_spec 0 "simulation unavailable" waitingOpenState).2.2.1,
   (error_record_spec 0 "simulation unavailable" waitingOpenState).2.2.2.2.1⟩

/-- Claim C4, counterexample: a transport-level fault does alter the
connection state — in a connected session the `onerror` handler forces the
connected flag from true to false. -/
theorem transport_fault_alters_connected_cex :
    waitingOpenState.isConnected = true
      ∧ (handleTransportError waitingOpenState).isConnected = false := by
  exact ⟨rfl, rfl⟩

/-- Claim C4, amended: a transport-level fault surfaces the fixed
connection-error text as the single current error (replacing any prior
one), clears the waiting flag, and in addition clears both the connected
and the connecting flags; the transcript, the transport handle and the
identifier counter are unchanged. -/
theorem transport_fault_spec (s : SessionState) :
    (handleTransportError s).error =
        some "Connection error. Is Syrinx running on port 8003?"
      ∧ (handleTransportError s).isWaitingForResponse = false
      ∧ (handleTransportError s).isConnected = false
      ∧ (handleTransportError s).isConnecting = false
      ∧ (handleTransportError s).messages = s.messages
      ∧ (handleTransportError s).ws = s.ws
      ∧ (handleTransportError s).messageId = s.messageId :=
  ⟨rfl, rfl, rfl, rfl, rfl, rfl, rfl⟩

/-- Claim C5: `disconnect` is idempotent — a second call leaves the state
of the first call unchanged and issues no second transport close; one call
clears the connected and waiting flags and releases the transport
handle. -/
theorem disconnect_idempotent (s : SessionState) :
    (disconnect (disconnect s).1).1 = (disconnect s).1
      ∧ (disconnect s).1.isConnected = false
      ∧ (disconnect s).1.isWaitingForResponse = false
      ∧ (disconnect s).1.ws = none
      ∧ (disconnect (disconnect s).1).2 = false := by
  refine ⟨rfl, rfl, rfl, rfl, rfl⟩

/-- Claim C6: `connect` on an already-open transport changes nothing;
`connect` without an open transport starts a fresh session — it sets the
connecting flag, clears the prior error and the prior transcript, and
installs a new transport handle in the connecting state. -/
theorem connect_spec (scenario : SyrinxScenario) (s : SessionState) :
    (wsIsOpen s.ws = true → connect scenario s = s)
      ∧ (wsIsOpen s.ws = false →
          connect scenario s =
            { s with
                isConnecting := true
                error := none
                messages := []
                ws := some { readyState := ReadyState.connecting } }) := by
  constructor
  · intro h
    simp [connect, h]
  · intro h
    simp [connect, h]

/-- Claim C6, witness: a no-op at an open-transport state and a fresh
start at a state with no transport. -/
theorem connect_spec_witness :
    connect (buildScenario 0 sampleEmptyDetail "fever" "calm") waitingOpenState =
        waitingOpenState
      ∧ connect (buildScenario 0 sampleEmptyDetail "fever" "calm") noTransportState =
          { noTransportState with
              isConnecting := true
              error := none
              messages := []
              ws := some { readyState := ReadyState.connecting } } :=
  ⟨(connect_spec (buildScenario 0 sampleEmptyDetail "fever" "calm")
      waitingOpenState).1 (by decide),
   (connect_spec (buildScenario 0 sampleEmptyDetail "fever" "calm")
      noTransportState).2 (by decide)⟩

/-- Claim C10: `sendMessage` without an open transport surfaces the
not-connected error and changes nothing else — the transcript, the waiting
flag and the connected flag are unchanged and nothing is transmitted. -/
theorem sendMessage_not_connected_spec (now : Nat) (text : String)
    (s : SessionState) (h : wsIsOpen s.ws = false) :
    (sendMessage now text s).1.error = some "Not connected to Syrinx"
      ∧ (sendMessage now text s).1.messages = s.messages
      ∧ (sendMessage now text s).1.isWaitingForResponse = s.isWaitingForResponse
      ∧ (sendMessage now text s).1.isConnected = s.isConnected
      ∧ (sendMessage now text s).2 = [] := by
  refine ⟨?_, ?_, ?_, ?_, ?_⟩ <;> simp [sendMessage, h]

/-- Claim C10, witness at a concrete state with no transport handle. -/
theorem sendMessage_not_connected_spec_witness :
    wsIsOpen noTransportState.ws = false
      ∧ (sendMessage 0 "hi" noTransportState).1.error =
          some "Not connected to Syrinx"
      ∧ (sendMessage 0 "hi" noTransportState).1.messages =
          noTransportState.messages
      ∧ (sendMessage 0 "hi" noTransportState).2 = [] :=
  ⟨by decide,
   (sendMessage_not_connected_spec 0 "hi" noTransportState (by decide)).1,
   (sendMessage_not_connected_spec 0 "hi" noTransportState (by decide)).2.1,
   (sendMessage_not_connected_spec 0 "hi" noTransportState (by decide)).2.2.2.2⟩

/-- Claim C7: for an infant (whole years below 1) the rendered age is the
floored month count since the date of birth with singular or plural
`month`, and it is never the string `0 years`; from one year on it is the
year count with singular or plural `year`. -/
theorem buildScenario_age_rendering (now_ms : Nat) (pd : PatientDetail)
    (chiefComplaint parentPersona : String)
    (hdob : pd.patient.date_of_birth ≤ now_ms) :
    (pd.patient.age_years < 1 →
        (buildScenario now_ms pd chiefComplaint parentPersona).patient.age =
          specCountUnit ((now_ms - pd.patient.date_of_birth) / 86400000 / 30) "month")
      ∧ (1 ≤ pd.patient.age_years →
          (buildScenario now_ms pd chiefComplaint parentPersona).patient.age =
            specCountUnit pd.patient.age_years "year")
      ∧ (pd.patient.age_years < 1 →
          (buildScenario now_ms pd chiefComplaint parentPersona).patient.age ≠
            "0 years") := by
  refine ⟨?_, ?_, ?_⟩
  · intro h
    have hdiv : (now_ms - pd.patient.date_of_birth) / 86400000 / 30
        = (now_ms - pd.patient.date_of_birth) / (1000 * 60 * 60 * 24 * 30) := by
      rw [Nat.div_div_eq_div_mul]
    have hM : (" month" : String) = " " ++ "month" := by decide
    simp only [buildScenario]
    unfold ageString
    rw [if_pos h, hdiv, hM]
    exact countUnit_src_eq_spec _ "month"
  · intro h
    have hY : (" year" : String) = " " ++ "year" := by decide
    simp only [buildScenario]
    unfold ageString
    rw [if_neg (Nat.not_lt.mpr h), hY]
    exact countUnit_src_eq_spec _ "year"
  · intro h
    simp only [buildScenario]
    unfold ageString
    rw [if_pos h]
    exact months_ne_zero_years _

/-- Claim C7, witness: a 90-day-old infant renders as a month count and
not as `0 years`. -/
theorem buildScenario_age_rendering_witness :
    samplePatientDetail.patient.date_of_birth ≤ 7776000000
      ∧ samplePatientDetail.patient.age_years < 1
      ∧ (buildScenario 7776000000 samplePatientDetail "fever" "anxious").patient.age =
          specCountUnit
            ((7776000000 - samplePatientDetail.patient.date_of_birth) / 86400000 / 30)
            "month"
      ∧ (buildScenario 7776000000 samplePatientDetail "fever" "anxious").patient.age ≠
          "0 years" :=
  ⟨by decide, by decide,
   (buildScenario_age_rendering 7776000000 samplePatientDetail "fever" "anxious"
      (by decide)).1 (by decide),
   (buildScenario_age_rendering 7776000000 samplePatientDetail "fever" "anxious"
      (by decide)).2.2 (by decide)⟩

/-- Claim C8: an entry passes the roster filter exactly when it is
clinically active (medications by `status`, conditions by
`clinical_status`, allergies by a non-empty display name); the built
descriptor lists the rendered filtered entries when the filter kept any,
and an included allergy carries its first recorded reaction manifestation
in parentheses when one is present. -/
theorem buildScenario_active_filtering (now_ms : Nat) (pd : PatientDetail)
    (chiefComplaint parentPersona : String) :
    (∀ m : Medication, m ∈ includedMedications pd.medications ↔
        m ∈ pd.medications ∧ m.status = "active")
      ∧ (∀ c : Condition, c ∈ includedConditions pd.conditions ↔
          c ∈ pd.conditions ∧ c.clinical_status = "active")
      ∧ (∀ a : Allergy, a ∈ includedAllergies pd.allergies ↔
          a ∈ pd.allergies ∧ a.display_name ≠ "")
      ∧ (includedMedications pd.medications ≠ [] →
          (buildScenario now_ms pd chiefComplaint parentPersona).patient.medications =
            (includedMedications pd.medications).map renderMedication)
      ∧ (includedConditions pd.conditions ≠ [] →
          (buildScenario now_ms pd chiefComplaint
              parentPersona).patient.chronic_conditions =
            (includedConditions pd.conditions).map (fun c => c.display_name))
      ∧ (includedAllergies pd.allergies ≠ [] →
          (buildScenario now_ms pd chiefComplaint parentPersona).patient.allergies =
            (includedAllergies pd.allergies).map renderAllergy)
      ∧ (∀ a : Allergy, ∀ r : String, firstReactionManifestation a = some r →
          r ≠ "" → renderAllergy a = a.display_name ++ " (" ++ r ++ ")")
      ∧ (∀ a : Allergy, firstReactionManifestation a = none →
          renderAllergy a = a.display_name) := by
  refine ⟨?_, ?_, ?_, ?_, ?_, ?_, ?_, ?_⟩
  · intro m
    simp [includedMedications, List.mem_filter]
  · intro c
    simp [includedConditions, List.mem_filter]
  · intro a
    simp [includedAllergies, List.mem_filter]
  · intro h
    simp only [buildScenario, activeMedications]
    exact placeholder_skipped _ _ (fun hm => h (List.map_eq_nil_iff.mp hm))
  · intro h
    simp only [buildScenario, activeConditions]
    exact placeholder_skipped _ _ (fun hm => h (List.map_eq_nil_iff.mp hm))
  · intro h
    simp only [buildScenario, activeAllergies]
    exact placeholder_skipped _ _ (fun hm => h (List.map_eq_nil_iff.mp hm))
  · intro a r hfirst hr
    simp [renderAllergy, hfirst, truthy, hr]
  · intro a hfirst
    simp [renderAllergy, hfirst, truthy]

/-- Claim C8, witness at the sample rosters: the active medication passes
the filter and the built descriptor lists exactly the rendered filtered
medications. -/
theorem buildScenario_active_filtering_witness :
    sampleMedicationActive ∈ includedMedications samplePatientDetail.medications
      ∧ includedMedications samplePatientDetail.medications ≠ []
      ∧ (buildScenario 7776000000 samplePatientDetail "fever"
            "anxious").patient.medications =
          (includedMedications samplePatientDetail.medications).map renderMedication :=
  ⟨((buildScenario_active_filtering 7776000000 samplePatientDetail "fever"
        "anxious").1 sampleMedicationActive).mpr ⟨by decide, by decide⟩,
   by decide,
   (buildScenario_active_filtering 7776000000 samplePatientDetail "fever"
      "anxious").2.2.2.1 (by decide)⟩

/-- Claim C9: every roster list of the built descriptor is non-empty, and
an empty filtered roster is replaced by its placeholder. -/
theorem buildScenario_nonempty_rosters (now_ms : Nat) (pd : PatientDetail)
    (chiefComplaint parentPersona : String) :
    (buildScenario now_ms pd chiefComplaint parentPersona).patient.allergies ≠ []
      ∧ (buildScenario now_ms pd chiefComplaint parentPersona).patient.medications ≠ []
      ∧ (buildScenario now_ms pd chiefComplaint
            parentPersona).patient.chronic_conditions ≠ []
      ∧ (activeAllergies pd.allergies = [] →
          (buildScenario now_ms pd chiefComplaint parentPersona).patient.allergies =
            ["None known"])
      ∧ (activeMedications pd.medications = [] →
          (buildScenario now_ms pd chiefComplaint parentPersona).patient.medications =
            ["None"])
      ∧ (activeConditions pd.conditions = [] →
          (buildScenario now_ms pd chiefComplaint
              parentPersona).patient.chronic_conditions = ["None"]) := by
  refine ⟨?_, ?_, ?_, ?_, ?_, ?_⟩
  · simp only [buildScenario]
    split
    · rename_i hlen
      exact List.length_pos.mp hlen
    · simp
  · simp only [buildScenario]
    split
    · rename_i hlen
      exact List.length_pos.mp hlen
    · simp
  · simp only [buildScenario]
    split
    · rename_i hlen
      exact List.length_pos.mp hlen
    · simp
  · intro h
    simp [buildScenario, h]
  · intro h
    simp [buildScenario, h]
  · intro h
    simp [buildScenario, h]

/-- Claim C9, witness at the empty rosters: the placeholder is substituted
and the lists stay non-empty. -/
theorem buildScenario_nonempty_rosters_witness :
    activeMedications sampleEmptyDetail.medications = []
      ∧ (buildScenario 0 sampleEmptyDetail "fever" "calm").patient.medications =
          ["None"]
      ∧ (buildScenario 0 sampleEmptyDetail "fever" "calm").patient.allergies ≠ [] :=
  ⟨by decide,
   (buildScenario_nonempty_rosters 0 sampleEmptyDetail "fever"
      "calm").2.2.2.2.1 (by decide),
   (buildScenario_nonempty_rosters 0 sampleEmptyDetail "fever" "calm").1⟩

end Mneme
